import Mathlib

/-!
Shallow embedding of the NL-to-SQL command-line utility
(src/NL-to-SQL.py) and proofs about its observable contract.

Python strings are modelled as lists of characters (`PyStr`), with
helpers mirroring the Python string methods the program uses
(`strip`, `rstrip`, `upper`, `startswith`, `endswith`, slicing).
External effects are modelled as explicit parameters: a `Catalog` for
the schema queries of `get_db_schema`, a `Backend` for the SQLite
connect/execute/commit/close of `execute_sql_query`, and a plain
function standing for the remote completion call of
`generate_sql_query`.  Each embedded function mirrors its Python
source branch by branch, and the driver `main_run` mirrors `main`.
-/

namespace NLToSQL

/-- Python strings, modelled as lists of characters. -/
abbrev PyStr := List Char

/-- Whitespace characters stripped by Python `str.strip` (ASCII range). -/
def isPySpace (c : Char) : Bool :=
  c == ' ' || c == '\t' || c == '\n' || c == '\r' || c == '\x0b' || c == '\x0c'

/-- Python `s.lstrip()`. -/
def lstrip (s : PyStr) : PyStr := s.dropWhile isPySpace

/-- Python `s.rstrip()`: drop trailing whitespace. -/
def rstrip (s : PyStr) : PyStr := (s.reverse.dropWhile isPySpace).reverse

/-- Python `s.strip()`. -/
def strip (s : PyStr) : PyStr := rstrip (lstrip s)

/-- Python `s.rstrip(';')`: drop all trailing semicolons. -/
def rstripSemi (s : PyStr) : PyStr := (s.reverse.dropWhile (fun c => c == ';')).reverse

/-- Python `s.upper()` (ASCII letters, as used by the program). -/
def upper (s : PyStr) : PyStr := s.map Char.toUpper

/-- Python `s.startswith(p)`. -/
def startsWith (s p : PyStr) : Bool := s.take p.length == p

/-- Python `s.endswith(p)`. -/
def endsWith (s p : PyStr) : Bool := startsWith s.reverse p.reverse

/-- Whether the last character of a string is a semicolon. -/
def lastIsSemi (s : PyStr) : Bool :=
  match s.reverse with
  | [] => false
  | c :: _ => c == ';'

/-- The opening markdown fence checked at line 131 of the source. -/
def sqlFence : PyStr := ("```sql" : String).toList

/-- The closing markdown fence checked at line 133 of the source. -/
def fence : PyStr := ("```" : String).toList

/-- The keyword compared against at lines 139, 187 and 319 of the source. -/
def selectKW : PyStr := ("SELECT" : String).toList

/-- Line 131-132 of the source: `if sql_query.startswith("```sql"): sql_query = sql_query[6:]`. -/
def stripSqlFenceHead (s : PyStr) : PyStr :=
  if startsWith s sqlFence then s.drop 6 else s

/-- Line 133-134 of the source: `if sql_query.endswith("```"): sql_query = sql_query[:-3]`. -/
def stripFenceTail (s : PyStr) : PyStr :=
  if endsWith s fence then s.take (s.length - 3) else s

/-- The cleanup applied to the model response text in `generate_sql_query`
(lines 127-136 of the source): `content.strip()`, fence removal, then
`.strip().rstrip(';')`. -/
def clean_sql (content : PyStr) : PyStr :=
  rstripSemi (strip (stripFenceTail (stripSqlFenceHead (strip content))))

/-- Line 187 of the source: `query.strip().upper().startswith("SELECT")`. -/
def isSelectQuery (q : PyStr) : Bool := startsWith (upper (strip q)) selectKW

/-- The SQLite layer seen by `execute_sql_query`: `connect` may raise,
and executing a statement may raise or produce fetched rows together
with the post-statement (pre-commit) database state.  Closing without
committing rolls the pending state back, which the embedding reflects
by keeping the original state on non-committed paths. -/
structure Backend (DB Row Err : Type) where
  connect : DB → Except Err Unit
  exec : PyStr → DB → Except Err (List Row × DB)

/-- The observable outcome of one `execute_sql_query` call: its return
value, the persisted database state afterwards, whether a connection
was opened, whether `conn.commit()` ran, and whether `conn.close()`
ran. -/
structure ExecOutcome (DB Row : Type) where
  result : Option (List Row)
  finalDb : DB
  opened : Bool
  committed : Bool
  closed : Bool

/-- Embedding of `execute_sql_query` (lines 160-214 of the source).
Branch by branch: empty query returns `None` without connecting
(lines 172-175); a raise during connect leaves `conn` as `None`, so
nothing is closed (line 206 guard); an execution error closes and
returns `None` with pending changes rolled back; a `SELECT` fetches
all rows, closes without committing (rollback keeps `db`); any other
statement commits, closes, and returns the empty list. -/
def execute_sql_query {DB Row Err : Type} (B : Backend DB Row Err) (db : DB)
    (query : PyStr) : ExecOutcome DB Row :=
  if query.isEmpty then
    ⟨none, db, false, false, false⟩
  else
    match B.connect db with
    | .error _ => ⟨none, db, false, false, false⟩
    | .ok _ =>
      match B.exec query db with
      | .error _ => ⟨none, db, true, false, true⟩
      | .ok (rows, db') =>
        if isSelectQuery query then ⟨some rows, db, true, false, true⟩
        else ⟨some [], db', true, true, true⟩

/-- The catalog queries issued by `get_db_schema`: the
`sqlite_master` table listing (each row reduced to its single `name`
field, as the source reads `tables[0][0]`), and `PRAGMA table_info`
rows reduced to the `(cid, name)` pair from which the source reads
`column[1]`.  Either query may raise. -/
structure Catalog (Err : Type) where
  listTables : Except Err (List PyStr)
  tableInfo : PyStr → Except Err (List (Nat × PyStr))

/-- An exception escaping `get_db_schema`: the `except sqlite3.Error`
handler at line 67 evaluates `tables[0][0] if tables else 'N/A'`, and
when the initial listing query itself raised, `tables` was never
assigned, so the handler raises `UnboundLocalError`.  A sibling
`except` clause of the same `try` does not catch an exception raised
inside a handler, so it propagates to the caller. -/
inductive SchemaExc : Type where
  | unboundLocalError : SchemaExc
deriving DecidableEq

/-- Embedding of `get_db_schema` (lines 28-72 of the source): an empty
table listing yields `(None, None)` (lines 47-50); a raise in the
listing query itself reaches the line 67 handler with `tables`
unbound, so `UnboundLocalError` escapes to the caller (the `Except`
error case); otherwise the first table's `PRAGMA table_info` is read,
a raise there yielding `(None, None)` (with `tables` bound the handler
completes) and success yielding the name with the column-name
projection of the info rows. -/
def get_db_schema {Err : Type} (cat : Catalog Err) :
    Except SchemaExc (Option PyStr × Option (List PyStr)) :=
  match cat.listTables with
  | .error _ => .error .unboundLocalError
  | .ok [] => .ok (none, none)
  | .ok (t :: _) =>
    match cat.tableInfo t with
    | .error _ => .ok (none, none)
    | .ok cols => .ok (some t, some (cols.map Prod.snd))

/-- The observable outcome of `generate_sql_query`: the returned value
and whether the non-`SELECT` warning of line 140 was printed. -/
structure GenOutcome where
  result : Option PyStr
  warned : Bool

/-- Embedding of `generate_sql_query` (lines 74-158 of the source).
The remote call is abstracted as `llm`, returning the response content
or raising.  On success the content is cleaned (lines 127-136), the
warning check of line 139 runs on the cleaned text (before the empty
check, as in the source), and an empty cleaned text yields `None`
(lines 144-146); otherwise the cleaned text is returned. -/
def generate_sql_query {Err : Type} (llm : PyStr → Except Err PyStr)
    (user_input : PyStr) : GenOutcome :=
  match llm user_input with
  | .error _ => ⟨none, false⟩
  | .ok content =>
    let sql := clean_sql content
    let warned := !(startsWith (upper sql) selectKW)
    if sql.isEmpty then ⟨none, warned⟩ else ⟨some sql, warned⟩

/-- Python truthiness test `not x` for an optional string
(`None` and `""` are falsy), as used at lines 258 and 297. -/
def falsyStr : Option PyStr → Bool
  | none => true
  | some s => s.isEmpty

/-- Python truthiness test `not x` for an optional list
(`None` and `[]` are falsy), as used at line 258. -/
def falsyCols : Option (List PyStr) → Bool
  | none => true
  | some l => l.isEmpty

/-- The result-printing loop of `main` (lines 314-315 of the source):
`for i, row in enumerate(results): print(f"Row {i+1}: {row}")`,
with the enumeration counter made explicit. -/
def rowsToLines {Row : Type} (showRow : Row → String) : Nat → List Row → List String
  | _, [] => []
  | i, r :: rs =>
    (("Row " : String) ++ toString (i + 1) ++ (": " : String) ++ showRow r)
      :: rowsToLines showRow (i + 1) rs

/-- The observable outcome of one driver run: whether SQL generation
was reached, whether execution was reached, the per-row lines printed
from the results, and the final database state. -/
structure RunOutcome (DB : Type) where
  generateCalled : Bool
  executeCalled : Bool
  rowLines : List String
  finalDb : DB

/-- Embedding of the pipeline portion of `main` (lines 244-325 of the
source), for a question supplied up front: read the schema, an
exception escaping `get_db_schema` being caught by the
`except Exception` handler at line 266 which returns early; return
early when `not table_name or not columns` (line 258); generate SQL
and return early when `not sql_query` (line 297); execute; on a
non-`None` result print one line per row. -/
def main_run {DB Row E1 E2 E3 : Type} (cat : Catalog E1)
    (llm : PyStr → Except E2 PyStr) (B : Backend DB Row E3)
    (showRow : Row → String) (db : DB) (question : PyStr) : RunOutcome DB :=
  match get_db_schema cat with
  | .error _ => ⟨false, false, [], db⟩
  | .ok schema =>
  if falsyStr schema.1 || falsyCols schema.2 then
    ⟨false, false, [], db⟩
  else
    match (generate_sql_query llm question).result with
    | none => ⟨true, false, [], db⟩
    | some sql =>
      if sql.isEmpty then ⟨true, false, [], db⟩
      else
        match (execute_sql_query B db sql).result with
        | none => ⟨true, true, [], (execute_sql_query B db sql).finalDb⟩
        | some rows =>
          ⟨true, true, rowsToLines showRow 0 rows, (execute_sql_query B db sql).finalDb⟩

/-- Concrete query text used to exercise the embedding. -/
def sel1 : PyStr := ("SELECT * FROM t" : String).toList

/-- Concrete lower-case query text with leading whitespace. -/
def lowsel : PyStr := ("  select x" : String).toList

/-- Concrete write-statement text used to exercise the embedding. -/
def ins1 : PyStr := ("INSERT INTO t VALUES (1)" : String).toList

/-- Concrete non-`SELECT` statement text used to exercise the embedding. -/
def del1 : PyStr := ("DELETE FROM t" : String).toList

/-- Concrete table name used to exercise the embedding. -/
def tnameT : PyStr := ("t" : String).toList

/-- Concrete column name used to exercise the embedding. -/
def colId : PyStr := ("id" : String).toList

/-- Concrete natural-language question used to exercise the embedding. -/
def someQ : PyStr := ("show all rows" : String).toList

/-- A small concrete SQLite layer over `Nat` database states: the
sample `SELECT` texts fetch fixed rows and leave the state alone, the
sample `INSERT` increments the state, and everything else raises. -/
def toyBackend : Backend Nat Nat Unit where
  connect := fun _ => .ok ()
  exec := fun q db =>
    if q = sel1 then .ok ([7, 8], db)
    else if q = lowsel then .ok ([3], db)
    else if q = ins1 then .ok ([], db + 1)
    else .error ()

/-- A catalog whose table listing succeeds with zero tables. -/
def emptyCat : Catalog Unit := ⟨.ok [], fun _ => .ok []⟩

/-- A catalog whose table listing raises. -/
def errCat : Catalog Unit := ⟨.error (), fun _ => .ok []⟩

/-- A catalog whose table listing succeeds but whose `PRAGMA
table_info` query raises. -/
def errInfoCat : Catalog Unit := ⟨.ok [tnameT], fun _ => .error ()⟩

/-- A catalog with one table `t` having one column `id`. -/
def goodCat : Catalog Unit := ⟨.ok [tnameT], fun _ => .ok [(0, colId)]⟩

/-- A remote-call stub answering with a fixed `SELECT` statement. -/
def llmSel : PyStr → Except Unit PyStr := fun _ => .ok sel1

/-- A remote-call stub answering with text that cleans to nothing. -/
def llmWs : PyStr → Except Unit PyStr := fun _ => .ok (("  ;;  " : String).toList)

/-- A remote-call stub answering with a fixed `DELETE` statement. -/
def llmDel : PyStr → Except Unit PyStr := fun _ => .ok del1

/-! ### Helper lemmas about the string operations -/

/-- The first element surviving `dropWhile` fails the predicate. -/
theorem dropWhile_head_false {p : Char → Bool} {l : PyStr} {c : Char} {cs : PyStr}
    (h : l.dropWhile p = c :: cs) : p c = false := by
  induction l with
  | nil => simp at h
  | cons a as ih =>
    rw [List.dropWhile_cons] at h
    by_cases hp : p a
    · rw [if_pos hp] at h
      exact ih h
    · rw [if_neg hp] at h
      cases h
      simpa using hp

/-- A right-strip result is an initial segment of its input: if it is
nonempty, the input starts with the same character. -/
theorem revDrop_cons {p : Char → Bool} {l : PyStr} {c : Char} {cs : PyStr}
    (h : (l.reverse.dropWhile p).reverse = c :: cs) :
    ∃ t, l = c :: (cs ++ t) := by
  refine ⟨(l.reverse.takeWhile p).reverse, ?_⟩
  calc l = (l.reverse).reverse := (List.reverse_reverse l).symm
    _ = (l.reverse.takeWhile p ++ l.reverse.dropWhile p).reverse := by
        rw [List.takeWhile_append_dropWhile]
    _ = (l.reverse.dropWhile p).reverse ++ (l.reverse.takeWhile p).reverse := by
        rw [List.reverse_append]
    _ = (c :: cs) ++ (l.reverse.takeWhile p).reverse := by rw [h]
    _ = c :: (cs ++ (l.reverse.takeWhile p).reverse) := by simp

/-- A nonempty `strip` result begins with a non-whitespace character. -/
theorem strip_head_not_space {s : PyStr} {c : Char} {cs : PyStr}
    (h : strip s = c :: cs) : isPySpace c = false := by
  rw [strip, rstrip] at h
  obtain ⟨t, ht⟩ := revDrop_cons h
  rw [lstrip] at ht
  exact dropWhile_head_false ht

/-- After `rstrip(';')` the text never ends in a semicolon. -/
theorem lastIsSemi_rstripSemi (y : PyStr) : lastIsSemi (rstripSemi y) = false := by
  rw [lastIsSemi, rstripSemi, List.reverse_reverse]
  cases hd : y.reverse.dropWhile (fun c => c == ';') with
  | nil => rfl
  | cons c cs => simpa using dropWhile_head_false hd

/-- If stripping then dropping trailing semicolons leaves only
whitespace, it in fact leaves nothing: the strip removed all boundary
whitespace first. -/
theorem rstripSemi_strip_all_space {y : PyStr}
    (h : (rstripSemi (strip y)).all isPySpace = true) : rstripSemi (strip y) = [] := by
  cases hc : rstripSemi (strip y) with
  | nil => rfl
  | cons c cs =>
    rw [hc] at h
    have hcw : isPySpace c = true := by
      simp [List.all_cons] at h
      exact h.1
    rw [rstripSemi] at hc
    obtain ⟨t, ht⟩ := revDrop_cons hc
    have : isPySpace c = false := strip_head_not_space ht
    rw [this] at hcw
    exact absurd hcw (by simp)

/-- The empty string is not detected as a `SELECT`. -/
theorem isSelect_ne_empty {q : PyStr} (h : isSelectQuery q = true) : q.isEmpty = false := by
  cases q with
  | nil => exact absurd h (by decide)
  | cons a l => rfl

/-- Behaviour of `execute_sql_query` on a detected `SELECT`: no commit,
database kept, and on a successful connect and execute the fetched
rows are returned. -/
theorem exec_select_spec {DB Row Err : Type} (B : Backend DB Row Err) (db db' : DB)
    (q : PyStr) (rows : List Row) (hs : isSelectQuery q = true) :
    (execute_sql_query B db q).committed = false ∧
    (execute_sql_query B db q).finalDb = db ∧
    (B.connect db = .ok () → B.exec q db = .ok (rows, db') →
      (execute_sql_query B db q).result = some rows) := by
  have hq : q.isEmpty = false := isSelect_ne_empty hs
  unfold execute_sql_query
  rw [hq]
  cases hc : B.connect db with
  | error e => simp
  | ok u =>
    cases he : B.exec q db with
    | error e => simp
    | ok p =>
      obtain ⟨rows', db''⟩ := p
      refine ⟨by simp [hs], by simp [hs], fun _ hx => ?_⟩
      cases hx
      simp [hs]

/-- Behaviour of `execute_sql_query` on a nonempty non-`SELECT` that
connects and executes without error: commit, empty result. -/
theorem exec_write_spec {DB Row Err : Type} (B : Backend DB Row Err) (db db' : DB)
    (q : PyStr) (rows : List Row) (hs : isSelectQuery q = false)
    (hq : q.isEmpty = false) (hc : B.connect db = .ok ())
    (he : B.exec q db = .ok (rows, db')) :
    (execute_sql_query B db q).result = some [] ∧
    (execute_sql_query B db q).committed = true ∧
    (execute_sql_query B db q).finalDb = db' := by
  unfold execute_sql_query
  rw [hq, hc, he]
  simp [hs]

/-- Each line printed by the result loop, at any starting counter. -/
theorem rowsToLines_getElem {Row : Type} (showRow : Row → String) (k i : Nat)
    (rows : List Row) :
    (rowsToLines showRow k rows)[i]? =
      (rows[i]?).map
        (fun r => ("Row " : String) ++ toString (k + i + 1) ++ (": " : String) ++ showRow r) := by
  induction rows generalizing k i with
  | nil => simp [rowsToLines]
  | cons r rs ih =>
    cases i with
    | zero => simp [rowsToLines]
    | succ j =>
      rw [rowsToLines]
      simp only [List.getElem?_cons_succ, ih (k + 1) j]
      have harith : k + 1 + j = k + (j + 1) := by omega
      rw [harith]

/-- The result loop prints exactly one line per row. -/
theorem rowsToLines_length {Row : Type} (showRow : Row → String) (k : Nat)
    (rows : List Row) : (rowsToLines showRow k rows).length = rows.length := by
  induction rows generalizing k with
  | nil => rfl
  | cons r rs ih => simp [rowsToLines, ih (k + 1)]

/-! ### Claim theorems -/

/-- C1: for every query whose stripped, uppercased text begins with
SELECT, `execute_sql_query` never commits and leaves the database
unchanged, and when connect and execute succeed it returns all fetched
rows; for every other non-empty query that connects and executes
without a database error, it commits the change and returns the empty
list rather than an error signal. -/
theorem select_reads_write_commits {DB Row Err : Type} (B : Backend DB Row Err)
    (db db' : DB) (q : PyStr) (rows : List Row) :
    (isSelectQuery q = true →
      (execute_sql_query B db q).committed = false ∧
      (execute_sql_query B db q).finalDb = db ∧
      (B.connect db = .ok () → B.exec q db = .ok (rows, db') →
        (execute_sql_query B db q).result = some rows)) ∧
    (isSelectQuery q = false → q.isEmpty = false → B.connect db = .ok () →
      B.exec q db = .ok (rows, db') →
      (execute_sql_query B db q).result = some [] ∧
      (execute_sql_query B db q).committed = true ∧
      (execute_sql_query B db q).finalDb = db') :=
  ⟨fun hs => exec_select_spec B db db' q rows hs,
   fun hs hq hc he => exec_write_spec B db db' q rows hs hq hc he⟩

/-- Concrete run of the C1 theorem: the sample SELECT fetches its rows
without committing, and the sample INSERT commits and returns the
empty list. -/
theorem select_reads_write_commits_witness :
    isSelectQuery sel1 = true ∧
    (execute_sql_query toyBackend 0 sel1).result = some [7, 8] ∧
    (execute_sql_query toyBackend 0 sel1).committed = false ∧
    isSelectQuery ins1 = false ∧
    (execute_sql_query toyBackend 0 ins1).result = some [] ∧
    (execute_sql_query toyBackend 0 ins1).committed = true ∧
    (execute_sql_query toyBackend 0 ins1).finalDb = 1 := by
  have h1 := (select_reads_write_commits toyBackend 0 0 sel1 [7, 8]).1 (by decide)
  have h2 := (select_reads_write_commits toyBackend 0 1 ins1 []).2 (by decide) (by decide) rfl rfl
  exact ⟨by decide, h1.2.2 rfl rfl, h1.1, by decide, h2.1, h2.2.1, h2.2.2⟩

/-- Opening and closing always coincide across the branches of
`execute_sql_query`. -/
theorem exec_opened_eq_closed {DB Row Err : Type} (B : Backend DB Row Err)
    (db : DB) (q : PyStr) :
    (execute_sql_query B db q).opened = (execute_sql_query B db q).closed := by
  unfold execute_sql_query
  cases hq : q.isEmpty with
  | true => simp
  | false =>
    cases hc : B.connect db with
    | error e => simp
    | ok u =>
      cases he : B.exec q db with
      | error e => simp
      | ok p =>
        obtain ⟨rows, db'⟩ := p
        by_cases hs : isSelectQuery q <;> simp [hs]

/-- C6: every call to `execute_sql_query` that opens a database
connection closes that connection before returning, on the success
path and on every error path. -/
theorem connection_always_closed {DB Row Err : Type} (B : Backend DB Row Err)
    (db : DB) (q : PyStr)
    (h : (execute_sql_query B db q).opened = true) :
    (execute_sql_query B db q).closed = true := by
  rw [← exec_opened_eq_closed B db q]
  exact h

/-- Concrete run of the C6 theorem: the sample SELECT opens a
connection and that connection is closed. -/
theorem connection_always_closed_witness :
    (execute_sql_query toyBackend 0 sel1).opened = true ∧
    (execute_sql_query toyBackend 0 sel1).closed = true :=
  ⟨by decide, connection_always_closed toyBackend 0 sel1 (by decide)⟩

/-- C9: called with the empty query string, `execute_sql_query`
returns `None` immediately, opens no connection, and leaves the
database state unchanged. -/
theorem empty_query_no_connection {DB Row Err : Type} (B : Backend DB Row Err) (db : DB) :
    (execute_sql_query B db []).result = none ∧
    (execute_sql_query B db []).opened = false ∧
    (execute_sql_query B db []).finalDb = db :=
  ⟨rfl, rfl, rfl⟩

/-- C10: SELECT detection ignores surrounding whitespace and letter
case: whenever the first six characters of the stripped query text
uppercase to SELECT, the query is treated as a SELECT — rows are
fetched and no commit is performed. -/
theorem select_detection_insensitive {DB Row Err : Type} (B : Backend DB Row Err)
    (db db' : DB) (q : PyStr) (rows : List Row)
    (hlow : upper ((strip q).take 6) = selectKW)
    (hc : B.connect db = .ok ()) (he : B.exec q db = .ok (rows, db')) :
    isSelectQuery q = true ∧
    (execute_sql_query B db q).result = some rows ∧
    (execute_sql_query B db q).committed = false ∧
    (execute_sql_query B db q).finalDb = db := by
  have hs : isSelectQuery q = true := by
    rw [isSelectQuery, startsWith]
    have h6 : selectKW.length = 6 := by decide
    rw [h6, upper, ← List.map_take]
    rw [upper] at hlow
    rw [hlow]
    simp
  have spec := exec_select_spec B db db' q rows hs
  exact ⟨hs, spec.2.2 hc he, spec.1, spec.2.1⟩

/-- Concrete run of the C10 theorem: a lower-case query with leading
whitespace is treated as a SELECT. -/
theorem select_detection_insensitive_witness :
    isSelectQuery lowsel = true ∧
    (execute_sql_query toyBackend 0 lowsel).result = some [3] ∧
    (execute_sql_query toyBackend 0 lowsel).committed = false ∧
    (execute_sql_query toyBackend 0 lowsel).finalDb = 0 :=
  select_detection_insensitive toyBackend 0 0 lowsel [3] (by decide) rfl rfl

/-- The fenced fixture response text of the spec's cleaning example. -/
def fixtureFenced : PyStr := ("```sql\nSELECT 1;\n```" : String).toList

/-- The expected cleaned text of the spec's cleaning example. -/
def fixtureTarget : PyStr := ("SELECT 1" : String).toList

/-- A response text carrying several trailing semicolons. -/
def fixtureMultiSemi : PyStr := ("SELECT 1;;;" : String).toList

/-- C2: the cleanup step of `generate_sql_query` strips leading and
trailing markdown fences and all trailing semicolons: the fenced
fixture cleans to exactly SELECT 1, repeated trailing semicolons are
all removed, and no cleaned text ever ends in a semicolon. -/
theorem clean_sql_strips_fences_and_semis :
    clean_sql fixtureFenced = fixtureTarget ∧
    clean_sql fixtureMultiSemi = fixtureTarget ∧
    ∀ s : PyStr, lastIsSemi (clean_sql s) = false := by
  refine ⟨by decide, by decide, fun s => ?_⟩
  unfold clean_sql
  exact lastIsSemi_rstripSemi _

/-- C3: when the cleaned model response is empty or whitespace-only,
`generate_sql_query` returns the failure signal `None`, and the driver
then returns early so `execute_sql_query` is never invoked on that
run. -/
theorem empty_clean_aborts_run {DB Row E1 E2 E3 : Type} (cat : Catalog E1)
    (llm : PyStr → Except E2 PyStr) (B : Backend DB Row E3)
    (showRow : Row → String) (db : DB) (q content : PyStr)
    (hresp : llm q = .ok content)
    (hws : (clean_sql content).all isPySpace = true) :
    (generate_sql_query llm q).result = none ∧
    (main_run cat llm B showRow db q).executeCalled = false := by
  have hemp : clean_sql content = [] := by
    unfold clean_sql at hws ⊢
    exact rstripSemi_strip_all_space hws
  have hgen : (generate_sql_query llm q).result = none := by
    unfold generate_sql_query
    rw [hresp]
    simp [hemp]
  refine ⟨hgen, ?_⟩
  unfold main_run
  split
  · rfl
  · rw [hgen]
    split
    · rfl
    · rfl

/-- Concrete run of the C3 theorem: a response that cleans to nothing
makes generation fail and the driver never reaches execution. -/
theorem empty_clean_aborts_run_witness :
    llmWs someQ = .ok (("  ;;  " : String).toList) ∧
    (clean_sql (("  ;;  " : String).toList)).all isPySpace = true ∧
    (generate_sql_query llmWs someQ).result = none ∧
    (main_run goodCat llmWs toyBackend (fun n : Nat => toString n) 0 someQ).executeCalled
      = false := by
  have h := empty_clean_aborts_run goodCat llmWs toyBackend (fun n : Nat => toString n)
    0 someQ (("  ;;  " : String).toList) rfl (by decide)
  exact ⟨rfl, by decide, h.1, h.2⟩

/-- C7: a non-empty cleaned SQL text that does not begin with SELECT
(case-insensitively) triggers the warning but is still returned
unchanged by `generate_sql_query`; it is never blocked. -/
theorem non_select_warns_not_blocked {Err : Type} (llm : PyStr → Except Err PyStr)
    (q content : PyStr)
    (hresp : llm q = .ok content)
    (hne : (clean_sql content).isEmpty = false)
    (hnsel : startsWith (upper (clean_sql content)) selectKW = false) :
    (generate_sql_query llm q).warned = true ∧
    (generate_sql_query llm q).result = some (clean_sql content) := by
  unfold generate_sql_query
  rw [hresp]
  simp [hne, hnsel]

/-- Concrete run of the C7 theorem: a DELETE statement is warned about
and still returned. -/
theorem non_select_warns_not_blocked_witness :
    (generate_sql_query llmDel someQ).warned = true ∧
    (generate_sql_query llmDel someQ).result = some (clean_sql del1) :=
  non_select_warns_not_blocked llmDel someQ del1 rfl (by decide) (by decide)

/-- C4: when the catalog lists zero tables, `get_db_schema` reports
failure with `(None, None)`, and the driver returns before
`generate_sql_query` is ever called, so the pipeline never reaches SQL
generation. -/
theorem zero_tables_aborts_before_generate {DB Row E1 E2 E3 : Type} (cat : Catalog E1)
    (llm : PyStr → Except E2 PyStr) (B : Backend DB Row E3)
    (showRow : Row → String) (db : DB) (q : PyStr)
    (h : cat.listTables = .ok []) :
    get_db_schema cat = .ok (none, none) ∧
    (main_run cat llm B showRow db q).generateCalled = false ∧
    (main_run cat llm B showRow db q).executeCalled = false := by
  have hs : get_db_schema cat = .ok (none, none) := by
    unfold get_db_schema
    rw [h]
  refine ⟨hs, ?_, ?_⟩ <;>
    · unfold main_run
      rw [hs]
      rfl

/-- Concrete run of the C4 theorem on a catalog with zero tables. -/
theorem zero_tables_aborts_before_generate_witness :
    get_db_schema emptyCat = .ok (none, none) ∧
    (main_run emptyCat llmSel toyBackend (fun n : Nat => toString n) 0 someQ).generateCalled
      = false ∧
    (main_run emptyCat llmSel toyBackend (fun n : Nat => toString n) 0 someQ).executeCalled
      = false :=
  zero_tables_aborts_before_generate emptyCat llmSel toyBackend
    (fun n : Nat => toString n) 0 someQ rfl

/-- C5: the code diverges from the claim on the listing-failure path.
When the table-listing query itself raises, the `except sqlite3.Error`
handler at line 67 reads the unbound `tables` variable, so
`get_db_schema` lets `UnboundLocalError` escape to its caller instead
of returning the failure signal `(None, None)` promised by the claim
and by the function's own docstring; only when the later `PRAGMA
table_info` query raises (with `tables` bound) does it return
`(None, None)`. -/
theorem catalog_listing_error_raises :
    get_db_schema errCat = .error .unboundLocalError ∧
    get_db_schema errInfoCat = .ok (none, none) :=
  ⟨rfl, rfl⟩

/-- C8: when execution succeeds with a result set, the driver prints
the rows in result-set order, one line per row, the row at 0-based
position i carrying the 1-based index i + 1. -/
theorem driver_prints_rows_one_based {DB Row E1 E2 E3 : Type} (cat : Catalog E1)
    (llm : PyStr → Except E2 PyStr) (B : Backend DB Row E3)
    (showRow : Row → String) (db : DB) (q sql : PyStr) (rows : List Row) (i : Nat)
    (sc : Option PyStr × Option (List PyStr))
    (hsc : get_db_schema cat = .ok sc)
    (hschema : falsyStr sc.1 = false)
    (hcols : falsyCols sc.2 = false)
    (hgen : (generate_sql_query llm q).result = some sql)
    (hsql : sql.isEmpty = false)
    (hexec : (execute_sql_query B db sql).result = some rows) :
    (main_run cat llm B showRow db q).rowLines = rowsToLines showRow 0 rows ∧
    (main_run cat llm B showRow db q).rowLines.length = rows.length ∧
    (rowsToLines showRow 0 rows)[i]? =
      (rows[i]?).map
        (fun r => ("Row " : String) ++ toString (i + 1) ++ (": " : String) ++ showRow r) := by
  have hmain : (main_run cat llm B showRow db q).rowLines = rowsToLines showRow 0 rows := by
    unfold main_run
    simp [hsc, hschema, hcols, hgen, hsql, hexec]
  refine ⟨hmain, ?_, ?_⟩
  · rw [hmain, rowsToLines_length]
  · simpa using rowsToLines_getElem showRow 0 i rows

/-- Concrete run of the C8 theorem: a two-row result set is printed as
two lines, the second row carrying index 2. -/
theorem driver_prints_rows_one_based_witness :
    (main_run goodCat llmSel toyBackend (fun n : Nat => toString n) 0 someQ).rowLines =
      rowsToLines (fun n : Nat => toString n) 0 [7, 8] ∧
    (main_run goodCat llmSel toyBackend (fun n : Nat => toString n) 0 someQ).rowLines.length
      = 2 ∧
    (rowsToLines (fun n : Nat => toString n) 0 [7, 8])[1]? =
      (([7, 8] : List Nat)[1]?).map
        (fun r => ("Row " : String) ++ toString (1 + 1) ++ (": " : String)
          ++ (fun n : Nat => toString n) r) :=
  driver_prints_rows_one_based goodCat llmSel toyBackend (fun n : Nat => toString n)
    0 someQ sel1 [7, 8] 1 (some tnameT, some [colId]) rfl
    (by decide) (by decide) (by decide) (by decide) (by decide)

end NLToSQL
